import Mathlib

/-!
Verification of the configuration-validation logic of
`inseq/commands/attribute_context/attribute_context_args.py`.

The source defines the dataclass `AttributeContextArgs` whose
`__post_init__` hook validates and defaults the merged field set.  We
embed the fields read by `__post_init__` and the hook itself, modelling
Python exceptions (`ValueError`, `TypeError`) with an explicit error
type, and prove the testable properties of the specification.
-/

namespace AttrCtx

/-- Prefix test on character lists (`needle` is a prefix of `hay`). -/
def isPfx : List Char → List Char → Bool
  | [], _ => true
  | _ :: _, [] => false
  | a :: as, b :: bs => a == b && isPfx as bs

/-- Index of the first occurrence of `needle` as a contiguous sublist of
`hay`, if any. -/
def subIndex (needle : List Char) : List Char → Option Nat
  | [] => if isPfx needle [] then some 0 else none
  | c :: t =>
    if isPfx needle (c :: t) then some 0
    else (subIndex needle t).map (· + 1)

/-- Python `needle in hay` on strings: substring containment. -/
def strContains (hay needle : String) : Bool :=
  (subIndex needle.data hay.data).isSome

/-- Python `hay.find(needle)`: index of the first occurrence, `-1` when
absent. -/
def pyFind (hay needle : String) : Int :=
  match subIndex needle.data hay.data with
  | some i => (i : Int)
  | none => -1

/-- Python truthiness of an `Optional[str]` value: `None` and the empty
string are falsy. -/
def truthy : Option String → Bool
  | none => false
  | some s => !s.isEmpty

/-- The `HandleOutputContextSetting` enum of the source. -/
inductive HandleOutputContextSetting where
  | MANUAL
  | AUTO
  | PRE
deriving DecidableEq, Repr

/-- The `.value` attribute of each enum member. -/
def HandleOutputContextSetting.value : HandleOutputContextSetting → String
  | .MANUAL => "manual"
  | .AUTO => "auto"
  | .PRE => "pre"

/-- The fields of `AttributeContextArgs` read by `__post_init__`:
the whole of `AttributeContextInputArgs` plus the three
`AttributeContextMethodArgs` fields the hook consults.  Defaults are the
dataclass defaults of the source. -/
structure AttributeContextArgs where
  input_current_text : String := ""
  input_context_text : Option String := none
  input_template : Option String := none
  output_context_text : Option String := none
  output_current_text : Option String := none
  output_template : Option String := none
  contextless_input_current_text : Option String := none
  handle_output_context_strategy : String := HandleOutputContextSetting.MANUAL.value
  contextless_output_next_tokens : List String := []
  prompt_user_for_contextless_output_next_tokens : Bool := false
deriving DecidableEq, Repr

/-- Python exceptions raised by `__post_init__`: `ValueError` for the
explicit configuration checks, `TypeError` for the `in` test applied to
`None`. -/
inductive PostInitError where
  | valueError (msg : String)
  | typeError (msg : String)
deriving DecidableEq, Repr

/-- Whether an error is the `ValueError` (invalid-configuration) kind. -/
def PostInitError.isValueError : PostInitError → Bool
  | .valueError _ => true
  | .typeError _ => false

/-- The state of the object after a successful `__post_init__`: templates
and the contextless current text are resolved to strings, context texts
may have been cleared, and the two derived flags are attached. -/
structure ResolvedArgs where
  input_current_text : String
  input_context_text : Option String
  input_template : String
  output_context_text : Option String
  output_template : String
  contextless_input_current_text : String
  has_input_context : Bool
  has_output_context : Bool
deriving DecidableEq, Repr

/-- Lines 233-234: `input_template` defaulted to `"{current}"` when
`input_context_text is None`, else `"{context} {current}"`. -/
def default_input_template (a : AttributeContextArgs) : String :=
  match a.input_template with
  | some t => t
  | none =>
    match a.input_context_text with
    | none => "{current}"
    | some _ => "{context} {current}"

/-- Lines 235-236: the same defaulting for `output_template`. -/
def default_output_template (a : AttributeContextArgs) : String :=
  match a.output_template with
  | some t => t
  | none =>
    match a.output_context_text with
    | none => "{current}"
    | some _ => "{context} {current}"

/-- Lines 243-248: `input_context_text` is cleared to `None` (with a
warning) when it is truthy but the resolved input template has no
`"{context}"` placeholder. -/
def cleared_input_context (a : AttributeContextArgs) : Option String :=
  if truthy a.input_context_text && !(strContains (default_input_template a) "{context}") then
    none
  else
    a.input_context_text

/-- Lines 249-254: the same clearing for `output_context_text`. -/
def cleared_output_context (a : AttributeContextArgs) : Option String :=
  if truthy a.output_context_text && !(strContains (default_output_template a) "{context}") then
    none
  else
    a.output_context_text

def pre_strategy_msg : String :=
  "If --handle_output_context_strategy is pre and the context placeholder is used in --output_template, --output_context_text must be specified to avoid user prompt for output context."

def none_membership_msg : String :=
  "argument of type NoneType is not iterable"

def mutual_exclusion_msg : String :=
  "Only one of contextless_output_next_tokens and prompt_user_for_contextless_output_next_tokens can be specified."

def empty_input_msg : String :=
  "--input_current_text must be a non-empty string."

def missing_input_context_msg : String :=
  "context format placeholder is present in input_template, but --input_context_text is not specified."

def missing_current_input_msg : String :=
  "current format placeholder is missing from input_template."

def missing_current_output_msg : String :=
  "current format placeholder is missing from output_template."

def order_msg : String :=
  "context placeholder must appear before current in output_template."

/-- Lines 228-276 of `__post_init__` after the strategy check: the
mutual-exclusion check, defaulting, derived flags, the emptiness check,
clearing, the placeholder checks, the duplicated emptiness check and the
output ordering check, in source order.  (Defaulting and clearing are
pure assignments, represented by the `default_*` and `cleared_*`
functions.) -/
def post_init_main (a : AttributeContextArgs) : Except PostInitError ResolvedArgs :=
  if a.contextless_output_next_tokens.length > 0
      && a.prompt_user_for_contextless_output_next_tokens then
    .error (.valueError mutual_exclusion_msg)
  else if a.input_current_text.isEmpty then
    .error (.valueError empty_input_msg)
  else if !(truthy (cleared_input_context a))
      && strContains (default_input_template a) "{context}" then
    .error (.valueError missing_input_context_msg)
  else if !(strContains (default_input_template a) "{current}") then
    .error (.valueError missing_current_input_msg)
  else if !(strContains (default_output_template a) "{current}") then
    .error (.valueError missing_current_output_msg)
  else if a.input_current_text.isEmpty then
    .error (.valueError empty_input_msg)
  else if strContains (default_output_template a) "{context}"
      && pyFind (default_output_template a) "{context}"
        > pyFind (default_output_template a) "{current}" then
    .error (.valueError order_msg)
  else
    .ok {
      input_current_text := a.input_current_text
      input_context_text := cleared_input_context a
      input_template := default_input_template a
      output_context_text := cleared_output_context a
      output_template := default_output_template a
      contextless_input_current_text := a.contextless_input_current_text.getD "{current}"
      has_input_context := strContains (default_input_template a) "{context}"
      has_output_context := strContains (default_output_template a) "{context}"
    }

/-- `__post_init__` (lines 218-276).  The first check (lines 219-227)
evaluates `"{context}" in self.output_template` only when the strategy is
`"pre"` and `output_context_text` is falsy; when `output_template` is
still `None` at that point the membership test raises `TypeError`. -/
def post_init (a : AttributeContextArgs) : Except PostInitError ResolvedArgs :=
  if a.handle_output_context_strategy == HandleOutputContextSetting.PRE.value
      && !(truthy a.output_context_text) then
    match a.output_template with
    | none => .error (.typeError none_membership_msg)
    | some t =>
      if strContains t "{context}" then .error (.valueError pre_strategy_msg)
      else post_init_main a
  else
    post_init_main a

/-- Configuration refuting the output half of the symmetric
placeholder/context-text claim: an output template with `"{context}"`
and no `output_context_text`, default `"manual"` strategy. -/
def c1_counter_cfg : AttributeContextArgs :=
  { input_current_text := "A dog barked.", output_template := some "{context} {current}" }

/-- Input template with a placeholder but no input context text. -/
def c1w1 : AttributeContextArgs :=
  { input_current_text := "It rained.", input_template := some "{context} {current}" }

/-- Input context text supplied while the input template lacks the
placeholder. -/
def c1w2 : AttributeContextArgs :=
  { input_current_text := "It rained.", input_context_text := some "Yesterday",
    input_template := some "{current}" }

/-- Output context text supplied while the output template lacks the
placeholder. -/
def c1w3 : AttributeContextArgs :=
  { input_current_text := "It rained.", output_context_text := some "Yesterday",
    output_template := some "{current}" }

def c2w : AttributeContextArgs :=
  { input_current_text := "Hi", handle_output_context_strategy := "pre",
    output_template := some "{context} {current}" }

def c3w : AttributeContextArgs :=
  { input_current_text := "Hi", handle_output_context_strategy := "pre" }

/-- Empty `input_current_text` together with the `"pre"` strategy and an
unspecified `output_template`. -/
def c4_counter_cfg : AttributeContextArgs :=
  { handle_output_context_strategy := "pre" }

/-- Empty `input_current_text`, everything else left at its default. -/
def c4w : AttributeContextArgs := {}

/-- A `contextless_input_current_text` with no `"{current}"` placeholder. -/
def c5_counter_cfg : AttributeContextArgs :=
  { input_current_text := "A dog barked.",
    contextless_input_current_text := some "plain contrastive text" }

def c5w1 : AttributeContextArgs :=
  { input_current_text := "Hi", input_template := some "no placeholder here" }

def c5w2 : AttributeContextArgs :=
  { input_current_text := "Hi", output_template := some "no placeholder here" }

/-- Both mutually exclusive contextless-output options set, under the
`"pre"` strategy with `output_template` unspecified. -/
def c6_counter_cfg : AttributeContextArgs :=
  { input_current_text := "Hi there", handle_output_context_strategy := "pre",
    contextless_output_next_tokens := ["x"],
    prompt_user_for_contextless_output_next_tokens := true }

def c6w1 : AttributeContextArgs :=
  { input_current_text := "Hi", contextless_output_next_tokens := ["tok"],
    prompt_user_for_contextless_output_next_tokens := true }

def c6w2 : AttributeContextArgs :=
  { input_current_text := "Hi" }

/-- An input template in which `"{context}"` appears after `"{current}"`:
the ordering check does not apply to the input side. -/
def c7_input_order : AttributeContextArgs :=
  { input_current_text := "She saw him.", input_context_text := some "She knows him.",
    input_template := some "{current} {context}" }

def c7w : AttributeContextArgs :=
  { input_current_text := "He left.", output_context_text := some "Before noon",
    output_template := some "{current} {context}" }

def c8w : AttributeContextArgs :=
  { input_current_text := "Hey", output_context_text := some "OC" }

def c9w : AttributeContextArgs :=
  { input_current_text := "Hi", input_context_text := some "W" }

/-- The resolved state of `c1w2`: the supplied input context text is
cleared. -/
def c1w2_res : ResolvedArgs :=
  { input_current_text := "It rained.", input_context_text := none,
    input_template := "{current}", output_context_text := none,
    output_template := "{current}", contextless_input_current_text := "{current}",
    has_input_context := false, has_output_context := false }

/-- The resolved state of `c1w3`: the supplied output context text is
cleared. -/
def c1w3_res : ResolvedArgs :=
  { input_current_text := "It rained.", input_context_text := none,
    input_template := "{current}", output_context_text := none,
    output_template := "{current}", contextless_input_current_text := "{current}",
    has_input_context := false, has_output_context := false }

/-- The resolved state of `c8w`. -/
def c8w_res : ResolvedArgs :=
  { input_current_text := "Hey", input_context_text := none,
    input_template := "{current}", output_context_text := some "OC",
    output_template := "{context} {current}",
    contextless_input_current_text := "{current}",
    has_input_context := false, has_output_context := true }

/-- The resolved state of `c9w`. -/
def c9w_res : ResolvedArgs :=
  { input_current_text := "Hi", input_context_text := some "W",
    input_template := "{context} {current}", output_context_text := none,
    output_template := "{current}", contextless_input_current_text := "{current}",
    has_input_context := true, has_output_context := false }

def c10_manual : AttributeContextArgs :=
  { input_current_text := "The cat sat.", output_template := some "{context} {current}" }

def c10_auto : AttributeContextArgs :=
  { input_current_text := "The cat sat.", output_template := some "{context} {current}",
    handle_output_context_strategy := "auto" }

def c10_input_side : AttributeContextArgs :=
  { input_current_text := "The cat sat.", input_template := some "{context} {current}" }

/-- The record produced by a successful `__post_init__`. -/
def resolved (a : AttributeContextArgs) : ResolvedArgs where
  input_current_text := a.input_current_text
  input_context_text := cleared_input_context a
  input_template := default_input_template a
  output_context_text := cleared_output_context a
  output_template := default_output_template a
  contextless_input_current_text := a.contextless_input_current_text.getD "{current}"
  has_input_context := strContains (default_input_template a) "{context}"
  has_output_context := strContains (default_output_template a) "{context}"

/-- Whether a `post_init` result is a raised `ValueError`, the
invalid-configuration error of the source. -/
def raised_value_error : Except PostInitError ResolvedArgs → Bool
  | .error (.valueError _) => true
  | _ => false

lemma truthy_iff (o : Option String) : truthy o = true ↔ ∃ s, o = some s ∧ s ≠ "" := by
  cases o with
  | none => simp [truthy]
  | some s =>
    constructor
    · intro h
      refine ⟨s, rfl, fun he => ?_⟩
      subst he
      exact absurd h (by decide)
    · rintro ⟨t, ht, hne⟩
      injection ht with h'
      subst h'
      show (!s.isEmpty) = true
      rw [Bool.not_eq_true', Bool.eq_false_iff]
      intro he
      exact hne ((String.isEmpty_iff s).mp he)

/-- A successful run of the validation tail records that none of its
checks fired and returns the resolved record. -/
lemma post_init_main_ok (a : AttributeContextArgs) (r : ResolvedArgs)
    (h : post_init_main a = .ok r) :
    (a.contextless_output_next_tokens.length > 0
        && a.prompt_user_for_contextless_output_next_tokens) = false ∧
    a.input_current_text.isEmpty = false ∧
    (!(truthy (cleared_input_context a))
        && strContains (default_input_template a) "{context}") = false ∧
    strContains (default_input_template a) "{current}" = true ∧
    strContains (default_output_template a) "{current}" = true ∧
    (strContains (default_output_template a) "{context}"
        && decide (pyFind (default_output_template a) "{context}"
          > pyFind (default_output_template a) "{current}")) = false ∧
    r = resolved a := by
  unfold post_init_main at h
  split at h
  · cases h
  · split at h
    · cases h
    · split at h
      · cases h
      · split at h
        · cases h
        · split at h
          · cases h
          · split at h
            · cases h
            · refine ⟨?_, ?_, ?_, ?_, ?_, ?_, ?_⟩ <;> simp_all [resolved]

/-- A successful `post_init` reached the validation tail successfully. -/
lemma post_init_ok_main (a : AttributeContextArgs) (r : ResolvedArgs)
    (h : post_init a = .ok r) : post_init_main a = .ok r := by
  unfold post_init at h
  split at h
  · split at h
    · cases h
    · split at h
      · cases h
      · exact h
  · exact h

/-- The validation tail either succeeds with the resolved record or
raises a `ValueError`; it never raises `TypeError`. -/
lemma post_init_main_result (a : AttributeContextArgs) :
    post_init_main a = .ok (resolved a) ∨
    (∃ m, post_init_main a = .error (.valueError m)) := by
  unfold post_init_main
  split
  · exact .inr ⟨_, rfl⟩
  · split
    · exact .inr ⟨_, rfl⟩
    · split
      · exact .inr ⟨_, rfl⟩
      · split
        · exact .inr ⟨_, rfl⟩
        · split
          · exact .inr ⟨_, rfl⟩
          · split
            · exact .inr ⟨_, rfl⟩
            · exact .inl rfl

/-- The only way `__post_init__` raises `TypeError` is the membership
test of the strategy check evaluated on `output_template = None`. -/
lemma post_init_typeError_corner (a : AttributeContextArgs) (m : String)
    (h : post_init a = .error (.typeError m)) :
    a.handle_output_context_strategy = HandleOutputContextSetting.PRE.value ∧
    truthy a.output_context_text = false ∧ a.output_template = none := by
  unfold post_init at h
  split at h
  case isTrue hc =>
    rw [Bool.and_eq_true, Bool.not_eq_true'] at hc
    split at h
    case _ heq => exact ⟨by simpa using hc.1, hc.2, heq⟩
    case _ t heq =>
      split at h
      · simp at h
      · rcases post_init_main_result a with hr | ⟨m', hr⟩ <;> rw [hr] at h <;> simp at h
  case isFalse =>
    rcases post_init_main_result a with hr | ⟨m', hr⟩ <;> rw [hr] at h <;> simp at h

/-- If no resolved record can be returned, `post_init` is a failure. -/
lemma post_init_isOk_false (a : AttributeContextArgs)
    (h : ∀ r, post_init a = .ok r → False) : (post_init a).isOk = false := by
  cases hpi : post_init a with
  | error e => rfl
  | ok r => exact absurd hpi (h r)

lemma value_error_msg_eq {m n : String}
    (h : (Except.error (PostInitError.valueError m) : Except PostInitError ResolvedArgs)
      = .error (.valueError n)) : m = n := by
  injection h with h'
  injection h'

/-- When the mutual-exclusion condition is false, the validation tail
never raises the mutual-exclusion error (all other raises carry a
different message). -/
lemma post_init_main_not_mutual (a : AttributeContextArgs)
    (hc : (a.contextless_output_next_tokens.length > 0
      && a.prompt_user_for_contextless_output_next_tokens) = false) :
    post_init_main a ≠ .error (.valueError mutual_exclusion_msg) := by
  intro h
  unfold post_init_main at h
  rw [hc] at h
  simp only [Bool.false_eq_true, if_false] at h
  split at h
  · exact absurd (value_error_msg_eq h) (by decide)
  · split at h
    · exact absurd (value_error_msg_eq h) (by decide)
    · split at h
      · exact absurd (value_error_msg_eq h) (by decide)
      · split at h
        · exact absurd (value_error_msg_eq h) (by decide)
        · split at h
          · exact absurd (value_error_msg_eq h) (by decide)
          · exact Except.noConfusion h

/-- Claim C1 (counterexample): with the default `"manual"` strategy, an
`output_template` carrying the `"{context}"` placeholder and no
`output_context_text` passes construction, so the claimed failure does
not hold for the output template/context pair. -/
theorem C1_counterexample :
    strContains "{context} {current}" "{context}" = true ∧
    c1_counter_cfg.output_context_text = none ∧
    post_init c1_counter_cfg = .ok
      { input_current_text := "A dog barked.", input_context_text := none,
        input_template := "{current}", output_context_text := none,
        output_template := "{context} {current}",
        contextless_input_current_text := "{current}",
        has_input_context := false, has_output_context := true } :=
  ⟨rfl, rfl, rfl⟩

/-- Claim C1 (amended): on the input side, a `"{context}"` placeholder in
the defaulted template without a truthy `input_context_text` makes
construction fail; on either side, a truthy context text supplied while
the defaulted template lacks the placeholder is cleared to `None`
whenever construction succeeds.  The failure direction does not extend
to the output side. -/
theorem C1_placeholder_and_context_text (a : AttributeContextArgs) :
    (strContains (default_input_template a) "{context}" = true →
      truthy a.input_context_text = false → (post_init a).isOk = false) ∧
    (∀ r, post_init a = .ok r → truthy a.input_context_text = true →
      strContains (default_input_template a) "{context}" = false →
      r.input_context_text = none) ∧
    (∀ r, post_init a = .ok r → truthy a.output_context_text = true →
      strContains (default_output_template a) "{context}" = false →
      r.output_context_text = none) := by
  refine ⟨?_, ?_, ?_⟩
  · intro hic ht
    apply post_init_isOk_false
    intro r hr
    have h3 := (post_init_main_ok a r (post_init_ok_main a r hr)).2.2.1
    have hcl : cleared_input_context a = a.input_context_text := by
      unfold cleared_input_context
      rw [ht]
      simp
    rw [hcl, ht, hic] at h3
    simp at h3
  · intro r hr ht hnc
    have h7 := (post_init_main_ok a r (post_init_ok_main a r hr)).2.2.2.2.2.2
    subst h7
    show cleared_input_context a = none
    unfold cleared_input_context
    rw [ht, hnc]
    simp
  · intro r hr ht hnc
    have h7 := (post_init_main_ok a r (post_init_ok_main a r hr)).2.2.2.2.2.2
    subst h7
    show cleared_output_context a = none
    unfold cleared_output_context
    rw [ht, hnc]
    simp

/-- Claim C1 (witness): the three parts of the amended statement applied
to concrete configurations. -/
theorem C1_placeholder_and_context_text_witness :
    (post_init c1w1).isOk = false ∧
    c1w2_res.input_context_text = none ∧
    c1w3_res.output_context_text = none :=
  ⟨(C1_placeholder_and_context_text c1w1).1 rfl rfl,
    (C1_placeholder_and_context_text c1w2).2.1 c1w2_res rfl rfl rfl,
    (C1_placeholder_and_context_text c1w3).2.2 c1w3_res rfl rfl rfl⟩

/-- Claim C2: under `handle_output_context_strategy = "pre"`, a supplied
`output_template` containing `"{context}"` together with a missing
(`None` or empty) `output_context_text` makes construction raise the
invalid-configuration `ValueError` of the strategy check. -/
theorem C2_pre_requires_output_context (a : AttributeContextArgs) (t : String)
    (h1 : a.handle_output_context_strategy = "pre")
    (h2 : truthy a.output_context_text = false)
    (h3 : a.output_template = some t)
    (h4 : strContains t "{context}" = true) :
    post_init a = .error (.valueError pre_strategy_msg) := by
  simp [post_init, h1, h2, h3, h4, HandleOutputContextSetting.value]

/-- Claim C2 (witness). -/
theorem C2_pre_requires_output_context_witness :
    post_init c2w = .error (.valueError pre_strategy_msg) :=
  C2_pre_requires_output_context c2w "{context} {current}" rfl rfl rfl rfl

/-- Claim C3: under `handle_output_context_strategy = "pre"` with no
output context text and `output_template` still `None`, the membership
test of the strategy check is evaluated on `None` and raises `TypeError`
before the template-defaulting step can run. -/
theorem C3_pre_none_template_typeError (a : AttributeContextArgs)
    (h1 : a.handle_output_context_strategy = "pre")
    (h2 : truthy a.output_context_text = false)
    (h3 : a.output_template = none) :
    post_init a = .error (.typeError none_membership_msg) := by
  simp [post_init, h1, h2, h3, HandleOutputContextSetting.value]

/-- Claim C3 (witness). -/
theorem C3_pre_none_template_typeError_witness :
    post_init c3w = .error (.typeError none_membership_msg) :=
  C3_pre_none_template_typeError c3w rfl rfl rfl

/-- Claim C4 (counterexample): with empty `input_current_text`, the
`"pre"` strategy and an unspecified `output_template`, construction
fails with `TypeError` rather than the invalid-configuration
`ValueError`. -/
theorem C4_counterexample :
    c4_counter_cfg.input_current_text = "" ∧
    post_init c4_counter_cfg = .error (.typeError none_membership_msg) :=
  ⟨rfl, rfl⟩

/-- Claim C4 (amended): an empty `input_current_text` always makes
construction fail; the failure is the invalid-configuration `ValueError`
except when the strategy check first evaluates its membership test on a
`None` output template, where `TypeError` is raised instead. -/
theorem C4_empty_input_fails (a : AttributeContextArgs)
    (h : a.input_current_text = "") :
    (post_init a).isOk = false ∧
    (raised_value_error (post_init a) = true ∨
      (a.handle_output_context_strategy = "pre" ∧
        truthy a.output_context_text = false ∧ a.output_template = none)) := by
  have hfail : ∀ r, post_init a = .ok r → False := by
    intro r hr
    have h2 := (post_init_main_ok a r (post_init_ok_main a r hr)).2.1
    rw [h] at h2
    exact absurd h2 (by decide)
  refine ⟨post_init_isOk_false a hfail, ?_⟩
  cases hpi : post_init a with
  | ok r => exact absurd hpi (hfail r)
  | error e =>
    cases e with
    | valueError m =>
      left
      rfl
    | typeError m =>
      right
      exact post_init_typeError_corner a m hpi

/-- Claim C4 (witness). -/
theorem C4_empty_input_fails_witness :
    (post_init c4w).isOk = false ∧
    (raised_value_error (post_init c4w) = true ∨
      (c4w.handle_output_context_strategy = "pre" ∧
        truthy c4w.output_context_text = false ∧ c4w.output_template = none)) :=
  C4_empty_input_fails c4w rfl

/-- Claim C5 (counterexample): `contextless_input_current_text` is a
template field that may lack the `"{current}"` placeholder, yet
construction succeeds, so the claim does not hold for every template
field. -/
theorem C5_counterexample :
    strContains "plain contrastive text" "{current}" = false ∧
    post_init c5_counter_cfg = .ok
      { input_current_text := "A dog barked.", input_context_text := none,
        input_template := "{current}", output_context_text := none,
        output_template := "{current}",
        contextless_input_current_text := "plain contrastive text",
        has_input_context := false, has_output_context := false } :=
  ⟨rfl, rfl⟩

/-- Claim C5 (amended): an `input_template` or `output_template` that,
after defaulting, lacks the `"{current}"` placeholder makes construction
fail; `contextless_input_current_text` is not subject to this check. -/
theorem C5_missing_current_fails (a : AttributeContextArgs) :
    (strContains (default_input_template a) "{current}" = false →
      (post_init a).isOk = false) ∧
    (strContains (default_output_template a) "{current}" = false →
      (post_init a).isOk = false) := by
  constructor
  · intro hm
    apply post_init_isOk_false
    intro r hr
    have h4 := (post_init_main_ok a r (post_init_ok_main a r hr)).2.2.2.1
    rw [hm] at h4
    exact absurd h4 (by decide)
  · intro hm
    apply post_init_isOk_false
    intro r hr
    have h5 := (post_init_main_ok a r (post_init_ok_main a r hr)).2.2.2.2.1
    rw [hm] at h5
    exact absurd h5 (by decide)

/-- Claim C5 (witness). -/
theorem C5_missing_current_fails_witness :
    (post_init c5w1).isOk = false ∧ (post_init c5w2).isOk = false :=
  ⟨(C5_missing_current_fails c5w1).1 rfl, (C5_missing_current_fails c5w2).2 rfl⟩

/-- Claim C6 (counterexample): with both mutually exclusive
contextless-output options set, the `"pre"` strategy and an unspecified
`output_template`, construction fails with `TypeError`, not with the
invalid-configuration `ValueError`. -/
theorem C6_counterexample :
    c6_counter_cfg.contextless_output_next_tokens.length > 0 ∧
    c6_counter_cfg.prompt_user_for_contextless_output_next_tokens = true ∧
    post_init c6_counter_cfg = .error (.typeError none_membership_msg) :=
  ⟨by decide, rfl, rfl⟩

/-- Claim C6 (amended): a non-empty `contextless_output_next_tokens`
together with `prompt_user_for_contextless_output_next_tokens = True`
always makes construction fail — with the invalid-configuration
`ValueError` except in the strategy-check `TypeError` corner — and when
at most one of the two is set, the mutual-exclusion check never fails
construction. -/
theorem C6_mutual_exclusion (a : AttributeContextArgs) :
    (a.contextless_output_next_tokens.length > 0 →
      a.prompt_user_for_contextless_output_next_tokens = true →
      (post_init a).isOk = false ∧
      (raised_value_error (post_init a) = true ∨
        (a.handle_output_context_strategy = "pre" ∧
          truthy a.output_context_text = false ∧ a.output_template = none))) ∧
    ((a.contextless_output_next_tokens.length > 0
        && a.prompt_user_for_contextless_output_next_tokens) = false →
      post_init a ≠ .error (.valueError mutual_exclusion_msg)) := by
  constructor
  · intro hlen hp
    have hfail : ∀ r, post_init a = .ok r → False := by
      intro r hr
      have h1 := (post_init_main_ok a r (post_init_ok_main a r hr)).1
      rw [hp] at h1
      simp [hlen] at h1
    refine ⟨post_init_isOk_false a hfail, ?_⟩
    cases hpi : post_init a with
    | ok r => exact absurd hpi (hfail r)
    | error e =>
      cases e with
      | valueError m =>
        left
        rfl
      | typeError m =>
        right
        exact post_init_typeError_corner a m hpi
  · intro hc h
    unfold post_init at h
    split at h
    · split at h
      · injection h with h'
        exact PostInitError.noConfusion h'
      · split at h
        · exact absurd (value_error_msg_eq h) (by decide)
        · exact post_init_main_not_mutual a hc h
    · exact post_init_main_not_mutual a hc h

/-- Claim C6 (witness): both halves of the amended statement at concrete
configurations. -/
theorem C6_mutual_exclusion_witness :
    ((post_init c6w1).isOk = false ∧
      (raised_value_error (post_init c6w1) = true ∨
        (c6w1.handle_output_context_strategy = "pre" ∧
          truthy c6w1.output_context_text = false ∧ c6w1.output_template = none))) ∧
    post_init c6w2 ≠ .error (.valueError mutual_exclusion_msg) :=
  ⟨(C6_mutual_exclusion c6w1).1 (by decide) rfl,
    (C6_mutual_exclusion c6w2).2 rfl⟩

/-- Claim C7: an `output_template` containing both placeholders with the
first `"{context}"` occurrence after the first `"{current}"` occurrence
makes construction fail with an invalid-configuration `ValueError`; the
ordering is not checked for the input template, as the concrete
configuration `c7_input_order` shows. -/
theorem C7_output_placeholder_order :
    (∀ (a : AttributeContextArgs) (t : String), a.output_template = some t →
      strContains t "{context}" = true → strContains t "{current}" = true →
      pyFind t "{context}" > pyFind t "{current}" →
      (post_init a).isOk = false ∧ raised_value_error (post_init a) = true) ∧
    post_init c7_input_order = .ok
      { input_current_text := "She saw him.", input_context_text := some "She knows him.",
        input_template := "{current} {context}", output_context_text := none,
        output_template := "{current}", contextless_input_current_text := "{current}",
        has_input_context := true, has_output_context := false } := by
  constructor
  · intro a t hsome hctx hcur hord
    have hdot : default_output_template a = t := by
      unfold default_output_template
      rw [hsome]
    have hfail : ∀ r, post_init a = .ok r → False := by
      intro r hr
      have h6 := (post_init_main_ok a r (post_init_ok_main a r hr)).2.2.2.2.2.1
      rw [hdot, hctx] at h6
      simp [hord] at h6
    refine ⟨post_init_isOk_false a hfail, ?_⟩
    cases hpi : post_init a with
    | ok r => exact absurd hpi (hfail r)
    | error e =>
      cases e with
      | valueError m => rfl
      | typeError m =>
        have hnone := (post_init_typeError_corner a m hpi).2.2
        rw [hsome] at hnone
        exact Option.noConfusion hnone
  · rfl

/-- Claim C7 (witness). -/
theorem C7_output_placeholder_order_witness :
    (post_init c7w).isOk = false ∧ raised_value_error (post_init c7w) = true :=
  C7_output_placeholder_order.1 c7w "{current} {context}" rfl rfl rfl (by decide)

/-- Claim C8: unspecified templates default to `"{context} {current}"`
when the corresponding context text is supplied and to `"{current}"`
otherwise, `contextless_input_current_text` defaults to `"{current}"`,
and the two worked examples of the specification hold. -/
theorem C8_template_defaulting :
    (∀ (a : AttributeContextArgs) (r : ResolvedArgs), post_init a = .ok r →
      (a.input_template = none →
        r.input_template =
          if a.input_context_text = none then "{current}" else "{context} {current}") ∧
      (a.output_template = none →
        r.output_template =
          if a.output_context_text = none then "{current}" else "{context} {current}") ∧
      (a.contextless_input_current_text = none →
        r.contextless_input_current_text = "{current}")) ∧
    post_init { input_current_text := "Hello" } = .ok
      { input_current_text := "Hello", input_context_text := none,
        input_template := "{current}", output_context_text := none,
        output_template := "{current}", contextless_input_current_text := "{current}",
        has_input_context := false, has_output_context := false } ∧
    post_init { input_current_text := "Hello", input_context_text := some "World" } = .ok
      { input_current_text := "Hello", input_context_text := some "World",
        input_template := "{context} {current}", output_context_text := none,
        output_template := "{current}", contextless_input_current_text := "{current}",
        has_input_context := true, has_output_context := false } := by
  refine ⟨?_, rfl, rfl⟩
  intro a r hr
  have h7 := (post_init_main_ok a r (post_init_ok_main a r hr)).2.2.2.2.2.2
  subst h7
  refine ⟨?_, ?_, ?_⟩
  · intro hn
    show default_input_template a = _
    unfold default_input_template
    rw [hn]
    cases hc : a.input_context_text <;> simp [hc]
  · intro hn
    show default_output_template a = _
    unfold default_output_template
    rw [hn]
    cases hc : a.output_context_text <;> simp [hc]
  · intro hn
    show a.contextless_input_current_text.getD "{current}" = "{current}"
    rw [hn]
    rfl

/-- Claim C8 (witness). -/
theorem C8_template_defaulting_witness :
    c8w_res.input_template =
      (if c8w.input_context_text = none then "{current}" else "{context} {current}") ∧
    c8w_res.output_template =
      (if c8w.output_context_text = none then "{current}" else "{context} {current}") ∧
    c8w_res.contextless_input_current_text = "{current}" :=
  ⟨(C8_template_defaulting.1 c8w c8w_res rfl).1 rfl,
    (C8_template_defaulting.1 c8w c8w_res rfl).2.1 rfl,
    (C8_template_defaulting.1 c8w c8w_res rfl).2.2 rfl⟩

/-- Claim C9: on every successfully constructed object,
`has_input_context` holds exactly when `input_context_text` is a
non-`None`, non-empty string, and the flag equals the presence of
`"{context}"` in the resolved input template. -/
theorem C9_input_context_invariant (a : AttributeContextArgs) (r : ResolvedArgs)
    (hr : post_init a = .ok r) :
    (r.has_input_context = true ↔ ∃ s, r.input_context_text = some s ∧ s ≠ "") ∧
    r.has_input_context = strContains r.input_template "{context}" := by
  have hm := post_init_main_ok a r (post_init_ok_main a r hr)
  have h3 := hm.2.2.1
  have h7 := hm.2.2.2.2.2.2
  subst h7
  refine ⟨?_, rfl⟩
  rw [← truthy_iff]
  show strContains (default_input_template a) "{context}" = true ↔
    truthy (cleared_input_context a) = true
  constructor
  · intro hic
    rw [hic] at h3
    simpa using h3
  · intro hcl
    by_contra hneg
    rw [Bool.not_eq_true] at hneg
    unfold cleared_input_context at hcl
    rw [hneg] at hcl
    cases hto : truthy a.input_context_text with
    | false => simp [hto] at hcl
    | true =>
      rw [hto] at hcl
      simp [truthy] at hcl

/-- Claim C9 (witness). -/
theorem C9_input_context_invariant_witness :
    (c9w_res.has_input_context = true ↔
      ∃ s, c9w_res.input_context_text = some s ∧ s ≠ "") ∧
    c9w_res.has_input_context = strContains c9w_res.input_template "{context}" :=
  C9_input_context_invariant c9w c9w_res rfl

/-- Claim C10: under both the default `"manual"` and the `"auto"`
strategy, an `output_template` with the `"{context}"` placeholder and no
`output_context_text` is accepted, leaving `has_output_context = true`
with `output_context_text = None`, while the same combination on the
input side raises the missing-input-context `ValueError`. -/
theorem C10_output_context_may_be_pending :
    post_init c10_manual = .ok
      { input_current_text := "The cat sat.", input_context_text := none,
        input_template := "{current}", output_context_text := none,
        output_template := "{context} {current}",
        contextless_input_current_text := "{current}",
        has_input_context := false, has_output_context := true } ∧
    post_init c10_auto = .ok
      { input_current_text := "The cat sat.", input_context_text := none,
        input_template := "{current}", output_context_text := none,
        output_template := "{context} {current}",
        contextless_input_current_text := "{current}",
        has_input_context := false, has_output_context := true } ∧
    post_init c10_input_side = .error (.valueError missing_input_context_msg) :=
  ⟨rfl, rfl, rfl⟩

end AttrCtx
